/-
  Verification of the favicon-badge library (src/src/favicon.ts).

  The DOM head is modelled as a list of link elements (only link elements are
  relevant: every document scan in the source starts from
  document.head.getElementsByTagName of link).  Attributes read through
  getAttribute are Option String (none = attribute absent).  The module-level
  mutable variables (current, canvas, context) are gathered into an explicit
  State record that every operation threads; a ghost counter `scans` records
  how many times a document scan (getFavicons / getBestFavicon at their call
  sites in the public operations) is performed, so that temporal claims about
  re-scanning can be stated.
-/
import Mathlib

namespace Badgin

/-- A link element of the document head, with the three attributes the source
reads (href, rel, sizes) and the two it writes on the link it creates
(id, type).  getAttribute returns none when the attribute is absent. -/
structure Link where
  href : Option String
  rel : Option String
  sizes : Option String
  idAttr : String := ""
  typeAttr : String := ""
deriving DecidableEq, Repr

/-- The Options record of the source (backgroundColor, color, indicator). -/
structure Options where
  backgroundColor : String
  color : String
  indicator : String
deriving DecidableEq, Repr

/-- A TS Partial of Options: each field optionally present. -/
structure OptionsPatch where
  backgroundColor : Option String := none
  color : Option String := none
  indicator : Option String := none
deriving DecidableEq, Repr

/-- Modelled from the spec: the Value type imported from ./index (not under
src/).  Per the spec a badge value is either a non-negative integer count or
any other value (booleans, negative numbers, non-numeric strings) treated as
indicator mode; integers carry the numeric case, booleans and strings the
non-numeric ones. -/
inductive Value where
  | int (n : Int)
  | bool (b : Bool)
  | str (s : String)
deriving DecidableEq, Repr

/-- Modelled from the spec: isPositiveNumber imported from ./isPositiveNumber
(not under src/).  Per the spec it recognises exactly the non-negative
integer counts (0 included, since the source then distinguishes value 0
inside the guarded branch). -/
def isPositiveNumber : Value → Bool
  | .int n => 0 ≤ n
  | _ => false

/-- Modelled from the spec: deepMerge imported from ./deepMerge (not under
src/).  Per spec section 4.1, merge overwrites only keys present in the
patch; absent keys retain the base value.  The source mutates the base
object in place; here the merged record is stored back into the one shared
options cell of the State (see optionsObj). -/
def deepMerge (base : Options) (p : OptionsPatch) : Options :=
  { backgroundColor := p.backgroundColor.getD base.backgroundColor
    color := p.color.getD base.color
    indicator := p.indicator.getD base.indicator }

/-- The exported defaultOptions literal. -/
def defaultOptions : Options :=
  { backgroundColor := "#424242", color := "#ffffff", indicator := "!" }

/-- JS String.prototype.split restricted to a single-character separator (the
source only splits on the space character and on the letter x), on the
underlying character list: consecutive separators yield empty groups and the
result is never the empty list, exactly as in JS. -/
def splitChars (sep : Char) : List Char → List (List Char)
  | [] => [[]]
  | c :: rest =>
    let groups := splitChars sep rest
    if c = sep then [] :: groups
    else
      match groups with
      | [] => [[c]]
      | g :: gs => (c :: g) :: gs

/-- JS String.prototype.split with a single-character separator, on strings. -/
def splitOnChar (sep : Char) (s : String) : List String :=
  (splitChars sep s.toList).map fun g => String.mk g

/-- JS parseInt with radix 10: skip leading whitespace, optional sign, then
the longest prefix of ASCII digits; none (NaN) when no digit is found. -/
def parseIntJS (s : String) : Option Int :=
  let cs := s.toList.dropWhile Char.isWhitespace
  let signed : Int × List Char :=
    match cs with
    | '-' :: t => (-1, t)
    | '+' :: t => (1, t)
    | t => (1, t)
  let ds := signed.2.takeWhile Char.isDigit
  if ds.isEmpty then none
  else some (signed.1 * (ds.foldl (fun a c => a * 10 + (c.toNat - 48)) 0 : Nat))

/-- getFavicons, lines 16 to 41 of the source: scan the head links in
document order; skip a link whose href is absent or empty, whose rel is
absent or empty, or whose rel split on the space character does not contain
the exact token icon; keep the rest. -/
def getFavicons : List Link → List Link
  | [] => []
  | link :: rest =>
    match link.href with
    | none => getFavicons rest
    | some href =>
      if href = "" then getFavicons rest
      else
        match link.rel with
        | none => getFavicons rest
        | some rel =>
          if rel = "" then getFavicons rest
          else if (splitOnChar ' ' rel).contains "icon" then link :: getFavicons rest
          else getFavicons rest

/-- The qualification test of getFavicons as a predicate on one link. -/
def isFavicon (l : Link) : Bool :=
  match l.href with
  | none => false
  | some href =>
    if href = "" then false
    else
      match l.rel with
      | none => false
      | some rel =>
        if rel = "" then false
        else (splitOnChar ' ' rel).contains "icon"

/-- The loop of getBestFavicon, lines 49 to 94 of the source: walk the
qualifying candidates carrying the running best and bestSize; a candidate
with no sizes attribute (or an empty one) becomes best only when best is
still null; sizes equal to the token any returns immediately; otherwise the
leading integer before the x separator is parsed, a parse failure behaves
like an absent sizes attribute, and a parsed size strictly greater than
bestSize replaces the best. -/
def bestFaviconAux : List Link → Option Link → Int → Option Link
  | [], bestFavicon, _ => bestFavicon
  | favicon :: rest, bestFavicon, bestSize =>
    match favicon.href with
    | none => bestFaviconAux rest bestFavicon bestSize
    | some href =>
      if href = "" then bestFaviconAux rest bestFavicon bestSize
      else
        match favicon.rel with
        | none => bestFaviconAux rest bestFavicon bestSize
        | some rel =>
          if rel = "" then bestFaviconAux rest bestFavicon bestSize
          else if (splitOnChar ' ' rel).contains "icon" = false then
            bestFaviconAux rest bestFavicon bestSize
          else
            match favicon.sizes with
            | none =>
              match bestFavicon with
              | none => bestFaviconAux rest (some favicon) 0
              | some b => bestFaviconAux rest (some b) bestSize
            | some sizes =>
              if sizes = "" then
                match bestFavicon with
                | none => bestFaviconAux rest (some favicon) 0
                | some b => bestFaviconAux rest (some b) bestSize
              else if sizes = "any" then some favicon
              else
                match parseIntJS ((splitOnChar 'x' sizes).headD "") with
                | none =>
                  match bestFavicon with
                  | none => bestFaviconAux rest (some favicon) 0
                  | some b => bestFaviconAux rest (some b) bestSize
                | some size =>
                  if bestSize < size then bestFaviconAux rest (some favicon) size
                  else bestFaviconAux rest bestFavicon bestSize

/-- getBestFavicon, lines 44 to 97 of the source. -/
def getBestFavicon (head : List Link) : Option Link :=
  bestFaviconAux (getFavicons head) none 0

/-- Splitting a character list at every whitespace character (spec-side
helper, not from the source). -/
def splitWhitespaceChars : List Char → List (List Char)
  | [] => [[]]
  | c :: rest =>
    let groups := splitWhitespaceChars rest
    if c.isWhitespace then [] :: groups
    else
      match groups with
      | [] => [[c]]
      | g :: gs => (c :: g) :: gs

/-- The whitespace-separated token list of an attribute value, following the
words of the spec for the discovery rule (a rel attribute whose
whitespace-separated tokens include icon); empty groups are not tokens.
This is the spec-side definition, to be compared with the split on the
single space character that the source performs. -/
def whitespaceTokens (s : String) : List String :=
  ((splitWhitespaceChars s.toList).map fun g => String.mk g).filter fun t => t != ""

/-- The numeric size a candidate parses to: the leading integer of the sizes
attribute before the x separator, as computed on line 79 of the source. -/
def parsedSize (l : Link) : Option Int :=
  parseIntJS (((splitOnChar 'x' (l.sizes.getD "")).headD ""))

/-- The parsed size with the default 0 used for comparisons. -/
def sizeVal (l : Link) : Int :=
  (parsedSize l).getD 0

/-- The text drawBubble computes on lines 186 to 198 of the source: under the
isPositiveNumber guard, the empty string for 0, the decimal string below
100, the literal 99+ from 100 on; outside the guard the configured
indicator.  The inner non-integer branch is unreachable because the guard
only holds for integers. -/
def bubbleText (value : Value) (options : Options) : String :=
  if isPositiveNumber value then
    match value with
    | .int n => if n = 0 then "" else if n < 100 then toString n else "99+"
    | _ => options.indicator
  else options.indicator

/-- drawBubble reduced to its observable effect on the badge text: none when
the computed text is empty (the early return on line 201, nothing is drawn
and the image stays the base icon alone), otherwise the text that is filled
into the bubble.  The geometry of the bubble is pure drawing-surface output
and carries no further logic. -/
def drawBubble (value : Value) (options : Options) : Option String :=
  let finalValue := bubbleText value options
  if finalValue = "" then none else some finalValue

/-- The link element setFavicon creates on lines 141 to 145 of the source. -/
def badginLink (url : String) : Link :=
  { href := some url, rel := some "icon favicon", sizes := none,
    idAttr := "badgin", typeAttr := "image/x-icon" }

/-- setFavicon, lines 128 to 148 of the source: return unchanged when the url
is empty; otherwise remove every qualifying icon link from the head and
append the one freshly created link. -/
def setFavicon (url : String) (head : List Link) : List Link :=
  if url = "" then head
  else (head.filter fun l => !(isFavicon l)) ++ [badginLink url]

/-- The module-level mutable state of the source: the document head, the
current record (favicons, bestFavicon, value, options), and the lazily
created canvas context.  optionsObj is the single options object that the
exported defaultOptions binding and current.options both point to (line 120
initialises current.options with the defaultOptions object itself and
deepMerge mutates it in place).  ctxLive tells whether the module-level
context variable is non-null; ctxOk is the fixed environment capability of
whether getContext succeeds.  scans is a ghost counter of document scans. -/
structure State where
  head : List Link
  favicons : Option (List Link)
  bestFavicon : Option Link
  value : Value
  optionsObj : Options
  ctxLive : Bool
  ctxOk : Bool
  scans : Nat
deriving DecidableEq, Repr

/-- The state at module load: current.favicons null, current.bestFavicon
null, current.value 0, current.options the defaultOptions object, no canvas
yet. -/
def initialState (head : List Link) (ctxOk : Bool) : State :=
  { head := head, favicons := none, bestFavicon := none, value := .int 0,
    optionsObj := defaultOptions, ctxLive := false, ctxOk := ctxOk, scans := 0 }

/-- The view of the session state through the exported defaultOptions
binding: it denotes the shared options object. -/
def defaultOptionsView (s : State) : Options :=
  s.optionsObj

/-- The view of the session state through current.options: the same shared
object as defaultOptionsView. -/
def currentOptionsView (s : State) : Options :=
  s.optionsObj

/-- isAvailable, lines 244 to 253 of the source: when the context is null try
to create the canvas and obtain a context; the result is context non-null
and getBestFavicon non-null, with the conjunction short-circuiting so the
document is scanned only when a context exists. -/
def isAvailable (s : State) : Bool × State :=
  let ctxNew := s.ctxLive || s.ctxOk
  if ctxNew then
    ((getBestFavicon s.head).isSome, { s with ctxLive := ctxNew, scans := s.scans + 1 })
  else
    (false, { s with ctxLive := ctxNew })

/-- set, lines 255 to 271 of the source: first record the value and merge the
options into the shared options object, then check availability (returning
false there), then fill current.bestFavicon and current.favicons only when
they are still null, and invoke the asynchronous drawFavicon (whose
completion is renderComplete below).  Returns the source return value
together with the new state. -/
def set (s : State) (value : Value) (opts : Option OptionsPatch) : Bool × State :=
  let s1 := { s with value := value,
                     optionsObj := deepMerge s.optionsObj (opts.getD {}) }
  let p := isAvailable s1
  if p.1 then
    let bfNew := if p.2.bestFavicon.isSome then p.2.bestFavicon
                 else getBestFavicon p.2.head
    let bfScan : Nat := if p.2.bestFavicon.isSome then 0 else 1
    let fsNew := if p.2.favicons.isSome then p.2.favicons
                 else some (getFavicons p.2.head)
    let fsScan : Nat := if p.2.favicons.isSome then 0 else 1
    (true, { p.2 with bestFavicon := bfNew, favicons := fsNew,
                      scans := p.2.scans + bfScan + fsScan })
  else (false, p.2)

/-- The completion of the asynchronous render started by drawFavicon, lines
153 to 167 of the source: when the image has loaded, the onload callback
aborts if the canvas is missing and otherwise draws and installs
canvas.toDataURL through setFavicon.  The url argument stands for the data
url the drawing surface serialises to. -/
def renderComplete (s : State) (url : String) : State :=
  if s.ctxLive then
    { s with head := setFavicon url s.head,
             scans := s.scans + (if url = "" then 0 else 1) }
  else s

/-- clear, lines 273 to 293 of the source: return when isAvailable is false;
when current.favicons is non-null, remove every qualifying icon link from
the head, append the snapshotted elements back in their original order, and
null out current.favicons and current.bestFavicon. -/
def clear (s : State) : State :=
  let p := isAvailable s
  if p.1 then
    if p.2.favicons.isSome then
      { p.2 with head := (p.2.head.filter fun l => !(isFavicon l)) ++ p.2.favicons.getD [],
                 favicons := none, bestFavicon := none, scans := p.2.scans + 1 }
    else p.2
  else p.2

/-- getFavicons is the filter of the head by the qualification predicate. -/
lemma getFavicons_eq_filter (head : List Link) :
    getFavicons head = head.filter isFavicon := by
  induction head with
  | nil => rfl
  | cons l rest ih =>
    cases hh : l.href with
    | none => simp [getFavicons, isFavicon, hh, ih, List.filter_cons]
    | some h =>
      by_cases he : h = ""
      · simp [getFavicons, isFavicon, hh, he, ih, List.filter_cons]
      · cases hr : l.rel with
        | none => simp [getFavicons, isFavicon, hh, he, hr, ih, List.filter_cons]
        | some r =>
          by_cases hre : r = ""
          · simp [getFavicons, isFavicon, hh, he, hr, hre, ih, List.filter_cons]
          · by_cases hc : (splitOnChar ' ' r).contains "icon"
            · simp [getFavicons, isFavicon, hh, he, hr, hre, hc, ih, List.filter_cons]
            · simp [getFavicons, isFavicon, hh, he, hr, hre, hc, ih, List.filter_cons]

/-- Every element of getFavicons qualifies. -/
lemma isFavicon_of_mem_getFavicons {head : List Link} {l : Link}
    (hl : l ∈ getFavicons head) : isFavicon l = true := by
  rw [getFavicons_eq_filter] at hl
  exact (List.mem_filter.mp hl).2

/-- The components of a qualifying link: a present non-empty href and a
present rel whose space-separated groups contain the token icon. -/
lemma isFavicon_destruct {l : Link} (hf : isFavicon l = true) :
    ∃ h r, l.href = some h ∧ h ≠ "" ∧ l.rel = some r ∧ r ≠ "" ∧
      (splitOnChar ' ' r).contains "icon" = true := by
  cases hh : l.href with
  | none => simp [isFavicon, hh] at hf
  | some h =>
    by_cases he : h = ""
    · simp [isFavicon, hh, he] at hf
    · cases hr : l.rel with
      | none => simp [isFavicon, hh, he, hr] at hf
      | some r =>
        by_cases hre : r = ""
        · simp [isFavicon, hh, he, hr, hre] at hf
        · refine ⟨h, r, rfl, he, rfl, hre, ?_⟩
          simpa [isFavicon, hh, he, hr, hre] using hf

/-- A successful parse pins down the sizes attribute: present, non-empty,
not the token any, and parsing to the given integer. -/
lemma parsedSize_destruct {l : Link} {v : Int} (hp : parsedSize l = some v) :
    ∃ sz, l.sizes = some sz ∧ sz ≠ "" ∧ sz ≠ "any" ∧
      parseIntJS ((splitOnChar 'x' sz).headD "") = some v := by
  cases hs : l.sizes with
  | none =>
    unfold parsedSize at hp
    rw [hs] at hp
    simp only [Option.getD_none] at hp
    rw [show parseIntJS ((splitOnChar 'x' "").headD "") = none from by decide] at hp
    exact Option.noConfusion hp
  | some sz =>
    have hp2 : parseIntJS ((splitOnChar 'x' sz).headD "") = some v := by
      unfold parsedSize at hp
      rw [hs] at hp
      simpa using hp
    refine ⟨sz, rfl, ?_, ?_, hp2⟩
    · rintro rfl
      rw [show parseIntJS ((splitOnChar 'x' "").headD "") = none from by decide] at hp2
      exact Option.noConfusion hp2
    · rintro rfl
      rw [show parseIntJS ((splitOnChar 'x' "any").headD "") = none from by decide] at hp2
      exact Option.noConfusion hp2

/-- Stepping the selection loop over a qualifying candidate with a parsed
numeric size: strictly larger than the running bestSize replaces the best,
anything else leaves it. -/
lemma bestAux_cons_numeric {x : Link} {h r sz : String} {v : Int}
    (hh : x.href = some h) (hhe : h ≠ "") (hr : x.rel = some r) (hre : r ≠ "")
    (hc : (splitOnChar ' ' r).contains "icon" = true)
    (hs : x.sizes = some sz) (hse : sz ≠ "") (hsa : sz ≠ "any")
    (hp : parseIntJS ((splitOnChar 'x' sz).headD "") = some v)
    (rest : List Link) (best : Option Link) (b : Int) :
    bestFaviconAux (x :: rest) best b =
      if b < v then bestFaviconAux rest (some x) v
      else bestFaviconAux rest best b := by
  have hcm : "icon" ∈ splitOnChar ' ' r := by simpa using hc
  rw [List.headD_eq_head?] at hp
  simp [bestFaviconAux, hh, hhe, hr, hre, hcm, hs, hse, hsa, hp]

/-- Stepping the selection loop over a qualifying candidate whose sizes
attribute is the token any returns that candidate immediately. -/
lemma bestAux_cons_any {x : Link} {h r : String}
    (hh : x.href = some h) (hhe : h ≠ "") (hr : x.rel = some r) (hre : r ≠ "")
    (hc : (splitOnChar ' ' r).contains "icon" = true)
    (hs : x.sizes = some "any")
    (rest : List Link) (best : Option Link) (b : Int) :
    bestFaviconAux (x :: rest) best b = some x := by
  have hcm : "icon" ∈ splitOnChar ' ' r := by simpa using hc
  simp [bestFaviconAux, hh, hhe, hr, hre, hcm, hs]

/-- Stepping the selection loop over a qualifying candidate whose sizes
attribute is not the token any never returns early: the loop continues on
the tail with some carried best and bestSize. -/
lemma bestAux_cons_step {x : Link}
    (hf : isFavicon x = true) (hna : x.sizes ≠ some "any")
    (rest : List Link) (best : Option Link) (b : Int) :
    ∃ best2 b2, bestFaviconAux (x :: rest) best b = bestFaviconAux rest best2 b2 := by
  obtain ⟨h, r, hh, hhe, hr, hre, hc⟩ := isFavicon_destruct hf
  have hcm : "icon" ∈ splitOnChar ' ' r := by simpa using hc
  cases hs : x.sizes with
  | none =>
    cases best with
    | none => exact ⟨some x, 0, by simp [bestFaviconAux, hh, hhe, hr, hre, hcm, hs]⟩
    | some bf => exact ⟨some bf, b, by simp [bestFaviconAux, hh, hhe, hr, hre, hcm, hs]⟩
  | some sz =>
    by_cases hse : sz = ""
    · subst hse
      cases best with
      | none => exact ⟨some x, 0, by simp [bestFaviconAux, hh, hhe, hr, hre, hcm, hs]⟩
      | some bf => exact ⟨some bf, b, by simp [bestFaviconAux, hh, hhe, hr, hre, hcm, hs]⟩
    · have hsa : sz ≠ "any" := by
        rintro rfl
        exact hna hs
      cases hp : parseIntJS ((splitOnChar 'x' sz).head?.getD "") with
      | none =>
        cases best with
        | none =>
          exact ⟨some x, 0, by simp [bestFaviconAux, hh, hhe, hr, hre, hcm, hs, hse, hsa,
            List.headD_eq_head?, hp]⟩
        | some bf =>
          exact ⟨some bf, b, by simp [bestFaviconAux, hh, hhe, hr, hre, hcm, hs, hse, hsa,
            List.headD_eq_head?, hp]⟩
      | some v =>
        by_cases hbv : b < v
        · exact ⟨some x, v, by simp [bestFaviconAux, hh, hhe, hr, hre, hcm, hs, hse, hsa,
            List.headD_eq_head?, hp, hbv]⟩
        · exact ⟨best, b, by simp [bestFaviconAux, hh, hhe, hr, hre, hcm, hs, hse, hsa,
            List.headD_eq_head?, hp, hbv]⟩

/-- On qualifying candidates that all parse to a numeric size, the selection
loop either keeps its carried best (when no candidate strictly exceeds the
carried bestSize) or returns the first candidate attaining the maximum
parsed size. -/
lemma bestAux_all_numeric (qs : List Link) : ∀ (best : Option Link) (b : Int),
    (∀ l ∈ qs, isFavicon l = true) →
    (∀ l ∈ qs, (parsedSize l).isSome) →
    ((∀ l ∈ qs, sizeVal l ≤ b) ∧ bestFaviconAux qs best b = best) ∨
    (∃ pre m post, qs = pre ++ m :: post ∧ bestFaviconAux qs best b = some m ∧
      b < sizeVal m ∧ (∀ l ∈ qs, sizeVal l ≤ sizeVal m) ∧
      ∀ l ∈ pre, sizeVal l < sizeVal m) := by
  induction qs with
  | nil =>
    intro best b _ _
    exact Or.inl ⟨by simp, rfl⟩
  | cons x rest ih =>
    intro best b hq hn
    have hfx : isFavicon x = true := hq x (List.mem_cons_self x rest)
    obtain ⟨v, hv⟩ := Option.isSome_iff_exists.mp (hn x (List.mem_cons_self x rest))
    obtain ⟨h, r, hh, hhe, hr, hre, hc⟩ := isFavicon_destruct hfx
    obtain ⟨sz, hs, hse, hsa, hp⟩ := parsedSize_destruct hv
    have hstep := bestAux_cons_numeric hh hhe hr hre hc hs hse hsa hp rest best b
    have hsv : sizeVal x = v := by unfold sizeVal; rw [hv]; rfl
    have hqr : ∀ l ∈ rest, isFavicon l = true :=
      fun l hl => hq l (List.mem_cons_of_mem x hl)
    have hnr : ∀ l ∈ rest, (parsedSize l).isSome :=
      fun l hl => hn l (List.mem_cons_of_mem x hl)
    by_cases hbv : b < v
    · rcases ih (some x) v hqr hnr with ⟨hall, heq⟩ |
        ⟨pre, m, post, hqeq, hres, hbm, hallm, hprem⟩
      · refine Or.inr ⟨[], x, rest, rfl, ?_, ?_, ?_, by simp⟩
        · rw [hstep, if_pos hbv, heq]
        · rw [hsv]; exact hbv
        · intro l hl
          rcases List.mem_cons.mp hl with rfl | hl2
          · exact le_refl _
          · rw [hsv]; exact hall l hl2
      · refine Or.inr ⟨x :: pre, m, post, by rw [List.cons_append, hqeq], ?_, ?_, ?_, ?_⟩
        · rw [hstep, if_pos hbv, hres]
        · exact lt_trans hbv hbm
        · intro l hl
          rcases List.mem_cons.mp hl with rfl | hl2
          · rw [hsv]; exact le_of_lt hbm
          · exact hallm l (hqeq ▸ hl2)
        · intro l hl
          rcases List.mem_cons.mp hl with rfl | hl2
          · rw [hsv]; exact hbm
          · exact hprem l hl2
    · rcases ih best b hqr hnr with ⟨hall, heq⟩ |
        ⟨pre, m, post, hqeq, hres, hbm, hallm, hprem⟩
      · refine Or.inl ⟨?_, by rw [hstep, if_neg hbv, heq]⟩
        intro l hl
        rcases List.mem_cons.mp hl with rfl | hl2
        · rw [hsv]; omega
        · exact hall l hl2
      · refine Or.inr ⟨x :: pre, m, post, by rw [List.cons_append, hqeq], ?_, hbm, ?_, ?_⟩
        · rw [hstep, if_neg hbv, hres]
        · intro l hl
          rcases List.mem_cons.mp hl with rfl | hl2
          · rw [hsv]; omega
          · exact hallm l (hqeq ▸ hl2)
        · intro l hl
          rcases List.mem_cons.mp hl with rfl | hl2
          · rw [hsv]; omega
          · exact hprem l hl2

/-- When the qualifying candidates are some prefix without the sizes token
any, then a candidate carrying it, the loop returns that candidate whatever
best and bestSize it carries and whatever follows. -/
lemma bestAux_any_first (pre : List Link) :
    ∀ (a : Link) (post : List Link) (best : Option Link) (b : Int),
    (∀ l ∈ pre, isFavicon l = true) → isFavicon a = true → a.sizes = some "any" →
    (∀ l ∈ pre, l.sizes ≠ some "any") →
    bestFaviconAux (pre ++ a :: post) best b = some a := by
  induction pre with
  | nil =>
    intro a post best b _ hfa hany _
    obtain ⟨h, r, hh, hhe, hr, hre, hc⟩ := isFavicon_destruct hfa
    simpa using bestAux_cons_any hh hhe hr hre hc hany post best b
  | cons x pre2 ih =>
    intro a post best b hq hfa hany hpre
    obtain ⟨best2, b2, hstep⟩ :=
      bestAux_cons_step (hq x (List.mem_cons_self x pre2))
        (hpre x (List.mem_cons_self x pre2)) (pre2 ++ a :: post) best b
    rw [List.cons_append, hstep]
    exact ih a post best2 b2 (fun l hl => hq l (List.mem_cons_of_mem x hl)) hfa hany
      (fun l hl => hpre l (List.mem_cons_of_mem x hl))

/-- A two-candidate document with sizes 0x0 on both: every qualifying
candidate carries a numeric WxH descriptor and both parse to the shared
maximum 0, so the claim designates the first candidate, yet getBestFavicon
returns none, because a parsed size must strictly exceed the initial
bestSize of 0 to be adopted. -/
def zeroIconA : Link := { href := some "z1.png", rel := some "icon", sizes := some "0x0" }

/-- The second all-zero candidate of the C1 counterexample. -/
def zeroIconB : Link := { href := some "z2.png", rel := some "icon", sizes := some "0x0" }

/-- Claim C1 counterexample: both candidates qualify and parse to the numeric
size 0, the maximum, but the scan returns none instead of the
first-encountered candidate of maximal parsed size. -/
theorem c1_counterexample :
    getFavicons [zeroIconA, zeroIconB] = [zeroIconA, zeroIconB] ∧
    parsedSize zeroIconA = some 0 ∧ parsedSize zeroIconB = some 0 ∧
    getBestFavicon [zeroIconA, zeroIconB] = none := by
  decide

/-- Claim C1 (amended): when every qualifying candidate carries a numeric
size descriptor, getBestFavicon returns the first-encountered candidate of
strictly largest parsed leading integer provided some candidate parses to a
positive value (ties are never taken over from the first holder); when every
candidate parses to a non-positive value, getBestFavicon returns none. -/
theorem c1_numeric_selection (head : List Link)
    (hnum : ∀ l ∈ getFavicons head, (parsedSize l).isSome) :
    ((∃ l ∈ getFavicons head, 1 ≤ sizeVal l) →
      ∃ pre m post, getFavicons head = pre ++ m :: post ∧
        getBestFavicon head = some m ∧
        (∀ l ∈ getFavicons head, sizeVal l ≤ sizeVal m) ∧
        ∀ l ∈ pre, sizeVal l < sizeVal m) ∧
    ((∀ l ∈ getFavicons head, sizeVal l ≤ 0) → getBestFavicon head = none) := by
  have hq : ∀ l ∈ getFavicons head, isFavicon l = true :=
    fun l hl => isFavicon_of_mem_getFavicons hl
  constructor
  · rintro ⟨l0, hl0, hpos⟩
    rcases bestAux_all_numeric (getFavicons head) none 0 hq hnum with ⟨hall, _⟩ |
      ⟨pre, m, post, hqeq, hres, hbm, hallm, hprem⟩
    · exact absurd (hall l0 hl0) (by omega)
    · exact ⟨pre, m, post, hqeq, hres, hallm, hprem⟩
  · intro hall
    rcases bestAux_all_numeric (getFavicons head) none 0 hq hnum with ⟨_, heq⟩ |
      ⟨pre, m, post, hqeq, hres, hbm, hallm, hprem⟩
    · exact heq
    · have hm : m ∈ getFavicons head := by
        rw [hqeq]
        exact List.mem_append_right _ (List.mem_cons_self m post)
      exact absurd (hall m hm) (by omega)

/-- A 32x32 candidate before a 16x16 candidate, for the C1 witness. -/
def icon32 : Link := { href := some "a.png", rel := some "icon", sizes := some "32x32" }

/-- The 16x16 candidate of the scenario. -/
def icon16 : Link := { href := some "b.png", rel := some "icon", sizes := some "16x16" }

/-- Witness for C1 at the scenario of the spec: both candidates numeric, the
32x32 one is selected. -/
theorem c1_witness :
    ∃ pre m post, getFavicons [icon32, icon16] = pre ++ m :: post ∧
      getBestFavicon [icon32, icon16] = some m ∧
      (∀ l ∈ getFavicons [icon32, icon16], sizeVal l ≤ sizeVal m) ∧
      ∀ l ∈ pre, sizeVal l < sizeVal m :=
  (c1_numeric_selection [icon32, icon16] (by decide)).1 ⟨icon32, by decide, by decide⟩

/-- Claim C2: when the qualifying candidates contain one whose sizes
attribute is exactly the token any (the first such, so in particular a
unique one), getBestFavicon returns it, wherever it sits and whatever the
other candidates declare: the scan stops there, so the candidates after it
are arbitrary. -/
theorem c2_any_wins (head pre : List Link) (a : Link) (post : List Link)
    (hq : getFavicons head = pre ++ a :: post)
    (hany : a.sizes = some "any")
    (hpre : ∀ l ∈ pre, l.sizes ≠ some "any") :
    getBestFavicon head = some a := by
  have hmem : ∀ l ∈ pre ++ a :: post, isFavicon l = true := by
    rw [← hq]
    exact fun l hl => isFavicon_of_mem_getFavicons hl
  have hfa : isFavicon a = true :=
    hmem a (List.mem_append_right _ (List.mem_cons_self a post))
  unfold getBestFavicon
  rw [hq]
  exact bestAux_any_first pre a post none 0
    (fun l hl => hmem l (List.mem_append_left _ hl)) hfa hany hpre

/-- A scalable candidate with sizes any, for the C2 witness. -/
def anyIcon : Link := { href := some "v.svg", rel := some "icon", sizes := some "any" }

/-- Witness for C2: the any candidate sits in the middle of two numeric ones
and still wins. -/
theorem c2_witness : getBestFavicon [icon16, anyIcon, icon32] = some anyIcon :=
  c2_any_wins [icon16, anyIcon, icon32] [icon16] anyIcon [icon32]
    (by decide) (by decide) (by decide)

/-- isAvailable never changes the head. -/
@[simp] lemma isAvailable_head (s : State) : (isAvailable s).2.head = s.head := by
  unfold isAvailable
  dsimp only
  split <;> rfl

/-- isAvailable never changes current.favicons. -/
@[simp] lemma isAvailable_favicons (s : State) : (isAvailable s).2.favicons = s.favicons := by
  unfold isAvailable
  dsimp only
  split <;> rfl

/-- isAvailable never changes current.bestFavicon. -/
@[simp] lemma isAvailable_bestFavicon (s : State) :
    (isAvailable s).2.bestFavicon = s.bestFavicon := by
  unfold isAvailable
  dsimp only
  split <;> rfl

/-- isAvailable never changes current.value. -/
@[simp] lemma isAvailable_value (s : State) : (isAvailable s).2.value = s.value := by
  unfold isAvailable
  dsimp only
  split <;> rfl

/-- isAvailable never changes the shared options object. -/
@[simp] lemma isAvailable_optionsObj (s : State) :
    (isAvailable s).2.optionsObj = s.optionsObj := by
  unfold isAvailable
  dsimp only
  split <;> rfl

/-- isAvailable scans the document exactly once when a context exists or can
be created, never otherwise. -/
lemma isAvailable_scans (s : State) :
    (isAvailable s).2.scans = s.scans + (if s.ctxLive || s.ctxOk then 1 else 0) := by
  unfold isAvailable
  dsimp only
  split <;> rename_i hc <;> simp [hc]

/-- The result of isAvailable: a context exists or can be created, and the
document scan finds a best favicon. -/
lemma isAvailable_fst (s : State) :
    (isAvailable s).1 = ((s.ctxLive || s.ctxOk) && (getBestFavicon s.head).isSome) := by
  unfold isAvailable
  dsimp only
  split <;> rename_i hc <;> simp [hc]

/-- Recording the value and merging the options does not change what
isAvailable returns (it reads only the head and the context fields). -/
lemma isAvailable_fst_record (s : State) (v : Value) (o : Options) :
    (isAvailable { s with value := v, optionsObj := o }).1 = (isAvailable s).1 := by
  rw [isAvailable_fst, isAvailable_fst]

/-- isAvailable leaves the context non-null exactly when it was already
non-null or could be created. -/
@[simp] lemma isAvailable_ctxLive (s : State) :
    (isAvailable s).2.ctxLive = (s.ctxLive || s.ctxOk) := by
  unfold isAvailable
  dsimp only
  split <;> rename_i hc <;> simp [hc]

/-- A set that returns true has gone through a successful availability
check, so the context is live afterwards. -/
lemma set_true_ctxLive (s : State) (v : Value) (o : Option OptionsPatch)
    (h : (set s v o).1 = true) : (set s v o).2.ctxLive = true := by
  unfold set at h ⊢
  dsimp only at h ⊢
  split at h
  · rename_i hc
    rw [isAvailable_fst] at hc
    have hctx : (s.ctxLive || s.ctxOk) = true := ((Bool.and_eq_true _ _).mp hc).1
    split
    · simp [hctx]
    · simp [hctx]
  · exact Bool.noConfusion h

/-- set always stores the merged options into the shared options object,
available or not. -/
lemma set_optionsObj (s : State) (v : Value) (o : Option OptionsPatch) :
    (set s v o).2.optionsObj = deepMerge s.optionsObj (o.getD {}) := by
  unfold set
  dsimp only
  split <;> simp

/-- set always records the value, available or not. -/
lemma set_value (s : State) (v : Value) (o : Option OptionsPatch) :
    (set s v o).2.value = v := by
  unfold set
  dsimp only
  split <;> simp

/-- The synchronous part of set never changes the head. -/
lemma set_head (s : State) (v : Value) (o : Option OptionsPatch) :
    (set s v o).2.head = s.head := by
  unfold set
  dsimp only
  split <;> simp

/-- clear never touches the shared options object. -/
lemma clear_optionsObj (s : State) : (clear s).optionsObj = s.optionsObj := by
  unfold clear
  dsimp only
  split
  · split <;> simp
  · simp

/-- Claim C3: the text the compositor renders is empty for the integer 0
(and then drawBubble draws nothing at all), the decimal string for 1 to 99,
the literal 99+ from 100 on, and the configured indicator glyph for every
negative or non-numeric value. -/
theorem c3_bubble_text (opts : Options) :
    bubbleText (Value.int 0) opts = "" ∧
    drawBubble (Value.int 0) opts = none ∧
    (∀ n : Int, 1 ≤ n → n ≤ 99 → bubbleText (Value.int n) opts = toString n) ∧
    (∀ n : Int, 100 ≤ n → bubbleText (Value.int n) opts = "99+") ∧
    (∀ n : Int, n < 0 → bubbleText (Value.int n) opts = opts.indicator) ∧
    (∀ v : Value, isPositiveNumber v = false → bubbleText v opts = opts.indicator) := by
  refine ⟨?_, ?_, ?_, ?_, ?_, ?_⟩
  · simp [bubbleText, isPositiveNumber]
  · simp [drawBubble, bubbleText, isPositiveNumber]
  · intro n h1 h99
    have hg : isPositiveNumber (Value.int n) = true := by
      simp only [isPositiveNumber, decide_eq_true_eq]
      omega
    have h0 : ¬n = 0 := by omega
    have h100 : n < 100 := by omega
    simp [bubbleText, hg, h0, h100]
  · intro n h100
    have hg : isPositiveNumber (Value.int n) = true := by
      simp only [isPositiveNumber, decide_eq_true_eq]
      omega
    have h0 : ¬n = 0 := by omega
    have hlt : ¬n < 100 := by omega
    simp [bubbleText, hg, h0, hlt]
  · intro n hneg
    have hg : isPositiveNumber (Value.int n) = false := by
      simp only [isPositiveNumber, decide_eq_false_iff_not]
      omega
    simp [bubbleText, hg]
  · intro v hv
    simp [bubbleText, hv]

/-- Witness for C3 at the values of the spec scenario: 47, 123, false, -5
and the badge-free 0. -/
theorem c3_witness :
    bubbleText (Value.int 47) defaultOptions = "47" ∧
    bubbleText (Value.int 123) defaultOptions = "99+" ∧
    bubbleText (Value.bool false) defaultOptions = defaultOptions.indicator ∧
    bubbleText (Value.int (-5)) defaultOptions = defaultOptions.indicator ∧
    drawBubble (Value.int 0) defaultOptions = none := by
  refine ⟨?_, ?_, ?_, ?_, ?_⟩
  · rw [(c3_bubble_text defaultOptions).2.2.1 47 (by decide) (by decide)]
    decide
  · exact (c3_bubble_text defaultOptions).2.2.2.1 123 (by decide)
  · exact (c3_bubble_text defaultOptions).2.2.2.2.2 (Value.bool false) (by decide)
  · exact (c3_bubble_text defaultOptions).2.2.2.2.1 (-5) (by decide)
  · exact (c3_bubble_text defaultOptions).2.1

/-- A link whose rel attribute separates its tokens with a tab character. -/
def tabIcon : Link := { href := some "t.png", rel := some "icon\tfavicon", sizes := none }

/-- Claim C8 counterexample: the whitespace-separated token list of the rel
attribute contains the exact token icon and the href is present and
non-empty, so the claim says the element qualifies; yet the scan, splitting
on the space character only, skips it. -/
theorem c8_counterexample :
    tabIcon.href = some "t.png" ∧
    whitespaceTokens "icon\tfavicon" = ["icon", "favicon"] ∧
    getFavicons [tabIcon] = [] := by
  decide

/-- Claim C8 (amended): an element qualifies if and only if its href is
present and non-empty and its rel is present with its space-separated
groups (split on the single space character, not on arbitrary whitespace)
containing the exact, case-sensitive token icon; failing elements are
silently skipped, and the returned sequence is the qualification filter of
the head, hence preserves document order as a sublist. -/
theorem c8_discovery (head : List Link) :
    (∀ l : Link, isFavicon l = true ↔
      (∃ h, l.href = some h ∧ h ≠ "") ∧
      (∃ r, l.rel = some r ∧ (splitOnChar ' ' r).contains "icon" = true)) ∧
    getFavicons head = head.filter isFavicon ∧
    (getFavicons head).Sublist head := by
  refine ⟨?_, getFavicons_eq_filter head, ?_⟩
  · intro l
    constructor
    · intro hf
      obtain ⟨h, r, hh, hhe, hr, _, hc⟩ := isFavicon_destruct hf
      exact ⟨⟨h, hh, hhe⟩, ⟨r, hr, hc⟩⟩
    · rintro ⟨⟨h, hh, hhe⟩, ⟨r, hr, hc⟩⟩
      have hre : r ≠ "" := by
        rintro rfl
        rw [show (splitOnChar ' ' "").contains "icon" = false from by decide] at hc
        exact Bool.noConfusion hc
      have hcm : "icon" ∈ splitOnChar ' ' r := by simpa using hc
      simp [isFavicon, hh, hhe, hr, hre, hcm]
  · rw [getFavicons_eq_filter]
    exact List.filter_sublist head

/-- Witness for C8: a qualifying link passes the characterisation and the
scan of a mixed head keeps exactly the qualifying element. -/
theorem c8_witness :
    isFavicon icon32 = true ∧ getFavicons [icon32, tabIcon] = [icon32] := by
  constructor
  · exact ((c8_discovery [icon32]).1 icon32).mpr
      ⟨⟨"a.png", rfl, by decide⟩, ⟨"icon", rfl, by decide⟩⟩
  · rw [(c8_discovery [icon32, tabIcon]).2.1]
    decide

/-- Claim C9: when no candidate qualifies, getBestFavicon returns none (no
error value exists in the model: the function is total) and isAvailable
returns false, whatever the canvas capability. -/
theorem c9_no_candidates (s : State) (h : getFavicons s.head = []) :
    getBestFavicon s.head = none ∧ (isAvailable s).1 = false := by
  have hb : getBestFavicon s.head = none := by
    unfold getBestFavicon
    rw [h]
    rfl
  refine ⟨hb, ?_⟩
  unfold isAvailable
  dsimp only
  split
  · simp [hb]
  · rfl

/-- A link with no href attribute at all. -/
def badIconNoHref : Link := { href := none, rel := some "icon", sizes := none }

/-- A link whose rel tokens do not contain icon. -/
def badIconStylesheet : Link := { href := some "s.css", rel := some "stylesheet", sizes := none }

/-- Witness for C9: a head of two disqualified links yields no best favicon
and an unavailable feature even though a drawing context exists. -/
theorem c9_witness :
    getBestFavicon (initialState [badIconNoHref, badIconStylesheet] true).head = none ∧
    (isAvailable (initialState [badIconNoHref, badIconStylesheet] true)).1 = false :=
  c9_no_candidates (initialState [badIconNoHref, badIconStylesheet] true) (by decide)

/-- Claim C7: installing a composited icon with a non-empty url removes
every qualifying icon link and appends the single freshly created badgin
link, so exactly one qualifying icon link remains afterwards, whatever the
head held before; the same holds for the head produced by a finished
render. -/
theorem c7_single_icon (head : List Link) (url : String) (hurl : url ≠ "") :
    setFavicon url head = (head.filter fun l => !(isFavicon l)) ++ [badginLink url] ∧
    getFavicons (setFavicon url head) = [badginLink url] ∧
    (∀ s : State, s.ctxLive = true → s.head = head →
      getFavicons (renderComplete s url).head = [badginLink url]) ∧
    (∀ (s2 : State) (v : Value) (o : Option OptionsPatch),
      (set s2 v o).1 = true → (set s2 v o).2.head = head →
      getFavicons (renderComplete (set s2 v o).2 url).head = [badginLink url]) := by
  have hbq : isFavicon (badginLink url) = true := by
    have hcm : "icon" ∈ splitOnChar ' ' "icon favicon" := by decide
    simp [isFavicon, badginLink, hurl, hcm]
  have h1 : setFavicon url head = (head.filter fun l => !(isFavicon l)) ++ [badginLink url] := by
    simp [setFavicon, hurl]
  have h2 : getFavicons (setFavicon url head) = [badginLink url] := by
    rw [getFavicons_eq_filter, h1, List.filter_append]
    have hempty : ((head.filter fun l => !(isFavicon l)).filter isFavicon) = [] := by
      rw [List.filter_eq_nil_iff]
      intro a ha
      have hna := (List.mem_filter.mp ha).2
      simp at hna
      simp [hna]
    rw [hempty]
    simp [hbq]
  have h3 : ∀ s : State, s.ctxLive = true → s.head = head →
      getFavicons (renderComplete s url).head = [badginLink url] := by
    intro s hctx hhead
    have hrc : (renderComplete s url).head = setFavicon url s.head := by
      simp [renderComplete, hctx]
    rw [hrc, hhead, h2]
  refine ⟨h1, h2, h3, ?_⟩
  intro s2 v o hsucc hhead
  exact h3 (set s2 v o).2 (set_true_ctxLive s2 v o hsucc) hhead

/-- Witness for C7: a mixed three-link head collapses to the one badgin link. -/
theorem c7_witness :
    getFavicons (setFavicon "data:img" [icon32, icon16, tabIcon]) = [badginLink "data:img"] :=
  (c7_single_icon [icon32, icon16, tabIcon] "data:img" (by decide)).2.1

/-- Claim C4 counterexample: on a state where isAvailable is false (no
drawing context can be created and the head is empty), set returns false but
still overwrites currentValue (0 becomes 5) and merges the partial options
into currentOptions (the indicator becomes X): the claimed absence of side
effects on the session state fails. -/
theorem c4_counterexample :
    (set (initialState [] false) (Value.int 5) (some { indicator := some "X" })).1 = false ∧
    (initialState [] false).value = Value.int 0 ∧
    (set (initialState [] false) (Value.int 5)
      (some { indicator := some "X" })).2.value = Value.int 5 ∧
    (initialState [] false).optionsObj.indicator = "!" ∧
    (set (initialState [] false) (Value.int 5)
      (some { indicator := some "X" })).2.optionsObj.indicator = "X" := by
  decide

/-- Claim C4 (amended): when isAvailable is false, set returns false and
leaves the document head, the snapshot and the chosen base icon unchanged;
but it has already recorded the value into currentValue and merged the
partial options into currentOptions before the availability check. -/
theorem c4_unavailable_set (s : State) (v : Value) (o : Option OptionsPatch)
    (h : (isAvailable s).1 = false) :
    (set s v o).1 = false ∧
    (set s v o).2.head = s.head ∧
    (set s v o).2.favicons = s.favicons ∧
    (set s v o).2.bestFavicon = s.bestFavicon ∧
    (set s v o).2.value = v ∧
    (set s v o).2.optionsObj = deepMerge s.optionsObj (o.getD {}) := by
  have h1 : (isAvailable
      { s with value := v, optionsObj := deepMerge s.optionsObj (o.getD {}) }).1 = false := by
    rw [isAvailable_fst_record]
    exact h
  have hset : set s v o = (false, (isAvailable
      { s with value := v, optionsObj := deepMerge s.optionsObj (o.getD {}) }).2) := by
    unfold set
    dsimp only
    rw [if_neg (by rw [h1]; exact Bool.false_ne_true)]
  rw [hset]
  simp

/-- Witness for C4: the concrete unavailable state of the counterexample,
through the amended theorem. -/
theorem c4_witness :
    (set (initialState [] false) (Value.int 7) none).1 = false ∧
    (set (initialState [] false) (Value.int 7) none).2.head = [] ∧
    (set (initialState [] false) (Value.int 7) none).2.value = Value.int 7 := by
  have h := c4_unavailable_set (initialState [] false) (Value.int 7) none (by decide)
  exact ⟨h.1, h.2.1, h.2.2.2.2.1⟩

/-- Claim C5 counterexample: with one qualifying icon in the head and a
working canvas, the first set performs three document scans (one inside
isAvailable, one to fill current.bestFavicon, one to fill current.favicons)
and a second set performs a fourth (isAvailable scans again), so within one
session the discovery/selection scan runs more than once in total. -/
theorem c5_counterexample :
    (set (initialState [icon32] true) (Value.int 1) none).1 = true ∧
    (set (initialState [icon32] true) (Value.int 1) none).2.scans = 3 ∧
    (set (set (initialState [icon32] true) (Value.int 1) none).2 (Value.int 2) none).1 = true ∧
    (set (set (initialState [icon32] true) (Value.int 1) none).2
      (Value.int 2) none).2.scans = 4 := by
  decide

/-- Claim C5 (amended): the session cache itself is computed at most once: a
set on a state whose chosenBase and snapshot are already filled reuses both
unchanged and adds no cache-filling scan; but each such call still performs
exactly one document scan through isAvailable whenever a context exists or
can be created, so discovery runs on every set call, not once per session. -/
theorem c5_cached_base (s : State) (v : Value) (o : Option OptionsPatch)
    (hb : s.bestFavicon.isSome) (hf : s.favicons.isSome) :
    (set s v o).2.bestFavicon = s.bestFavicon ∧
    (set s v o).2.favicons = s.favicons ∧
    (set s v o).2.scans = s.scans + (if s.ctxLive || s.ctxOk then 1 else 0) := by
  unfold set
  dsimp only
  split
  · simp [hb, hf, isAvailable_scans]
  · simp [isAvailable_scans]

/-- Witness for C5: the state after a first successful set has both caches
filled; a second set keeps them and adds exactly the one isAvailable scan. -/
theorem c5_witness :
    ((set (set (initialState [icon32] true) (Value.int 1) none).2 (Value.int 2) none).2.bestFavicon
       = (set (initialState [icon32] true) (Value.int 1) none).2.bestFavicon) ∧
    ((set (set (initialState [icon32] true) (Value.int 1) none).2 (Value.int 2) none).2.favicons
       = (set (initialState [icon32] true) (Value.int 1) none).2.favicons) ∧
    ((set (set (initialState [icon32] true) (Value.int 1) none).2 (Value.int 2) none).2.scans
       = (set (initialState [icon32] true) (Value.int 1) none).2.scans +
         (if (set (initialState [icon32] true) (Value.int 1) none).2.ctxLive ||
             (set (initialState [icon32] true) (Value.int 1) none).2.ctxOk then 1 else 0)) :=
  c5_cached_base (set (initialState [icon32] true) (Value.int 1) none).2
    (Value.int 2) none (by decide) (by decide)

/-- Claim C6 counterexample: a state whose snapshot exists (current.favicons
holds one link) but whose head has no qualifying icon link: isAvailable is
false, so clear returns without restoring the snapshotted element to the
head and without resetting current.favicons. -/
theorem c6_counterexample :
    ({ initialState [] true with favicons := some [icon32] } : State).favicons
      = some [icon32] ∧
    (clear { initialState [] true with favicons := some [icon32] }).head = [] ∧
    (clear { initialState [] true with favicons := some [icon32] }).favicons
      = some [icon32] := by
  decide

/-- Removing the qualifying links leaves a list with no qualifying link. -/
lemma filter_not_filter_nil (head : List Link) :
    ((head.filter fun l => !(isFavicon l)).filter isFavicon) = [] := by
  rw [List.filter_eq_nil_iff]
  intro a ha
  have hna := (List.mem_filter.mp ha).2
  simp at hna
  simp [hna]

/-- Claim C6 (amended): when a snapshot exists AND isAvailable is true,
clear removes every qualifying icon link from the head, re-appends the
snapshotted elements in their original order (so the qualifying icon links
of the head are again exactly the snapshot), and resets current.favicons
and current.bestFavicon; when no snapshot exists, clear leaves the head and
the session icon state unchanged.  The isAvailable gate is what the
original claim misses: with a snapshot but no qualifying icon link in the
head, clear restores nothing (see the counterexample). -/
theorem c6_clear_restores (s : State) (snap : List Link)
    (hsnap : s.favicons = some snap)
    (hq : ∀ l ∈ snap, isFavicon l = true)
    (havail : (isAvailable s).1 = true) :
    (clear s).head = (s.head.filter fun l => !(isFavicon l)) ++ snap ∧
    getFavicons (clear s).head = snap ∧
    (clear s).favicons = none ∧
    (clear s).bestFavicon = none ∧
    (∀ t : State, t.favicons = none → (clear t).head = t.head ∧
      (clear t).favicons = none ∧ (clear t).bestFavicon = t.bestFavicon ∧
      (clear t).value = t.value ∧ (clear t).optionsObj = t.optionsObj) := by
  have h1 : (clear s).head = (s.head.filter fun l => !(isFavicon l)) ++ snap := by
    simp [clear, havail, hsnap]
  refine ⟨h1, ?_, ?_, ?_, ?_⟩
  · rw [h1, getFavicons_eq_filter, List.filter_append, filter_not_filter_nil,
      List.nil_append, List.filter_eq_self.mpr hq]
  · simp [clear, havail, hsnap]
  · simp [clear, havail, hsnap]
  · intro t ht
    by_cases hav : (isAvailable t).1 = true
    · refine ⟨?_, ?_, ?_, ?_, ?_⟩ <;> simp [clear, hav, ht]
    · refine ⟨?_, ?_, ?_, ?_, ?_⟩ <;> simp [clear, hav, ht]

/-- A state holding a snapshot of two original icons while the head shows
the installed badgin link, as after a completed render. -/
def snapState : State :=
  { initialState [badginLink "data:u"] true with
      favicons := some [icon32, icon16], bestFavicon := some icon32 }

/-- Witness for C6: clear on the snapshot state restores exactly the two
snapshotted icons, resets the session, and is a no-op without a snapshot. -/
theorem c6_witness :
    (clear snapState).head = ((snapState.head.filter fun l => !(isFavicon l)) ++ [icon32, icon16]) ∧
    getFavicons (clear snapState).head = [icon32, icon16] ∧
    (clear snapState).favicons = none ∧
    (clear snapState).bestFavicon = none ∧
    (clear (initialState [] true)).head = [] := by
  have h := c6_clear_restores snapState [icon32, icon16] rfl (by decide) (by decide)
  exact ⟨h.1, h.2.1, h.2.2.1, h.2.2.2.1, (h.2.2.2.2 (initialState [] true) rfl).1⟩

/-- Claim C10: the exported defaultOptions binding denotes the very object
current.options was initialised with, so after any set whose partial options
carry a key, the exported defaults show the overwritten value; clear leaves
the options object alone and a later set without that key keeps the
overwritten value, so the documented defaults are never restored. -/
theorem c10_options_aliasing (s : State) (v : Value) (p : OptionsPatch) (g : String)
    (hp : p.indicator = some g) :
    (∀ (hd : List Link) (ok : Bool), defaultOptionsView (initialState hd ok) = defaultOptions) ∧
    (∀ t : State, defaultOptionsView t = currentOptionsView t) ∧
    (∀ (t : State) (v2 : Value) (q : OptionsPatch),
      defaultOptionsView (set t v2 (some q)).2 = deepMerge (defaultOptionsView t) q) ∧
    (∀ t : State, defaultOptionsView (clear t) = defaultOptionsView t) ∧
    (defaultOptionsView (set s v (some p)).2).indicator = g ∧
    (defaultOptionsView (clear (set s v (some p)).2)).indicator = g ∧
    (∀ (v2 : Value) (q : OptionsPatch), q.indicator = none →
      (defaultOptionsView (set (set s v (some p)).2 v2 (some q)).2).indicator = g) := by
  have h1 : (set s v (some p)).2.optionsObj.indicator = g := by
    rw [set_optionsObj]
    simp [deepMerge, hp]
  refine ⟨fun hd ok => rfl, fun t => rfl, ?_, ?_, h1, ?_, ?_⟩
  · intro t v2 q
    unfold defaultOptionsView
    rw [set_optionsObj]
    rfl
  · intro t
    unfold defaultOptionsView
    rw [clear_optionsObj]
  · unfold defaultOptionsView
    rw [clear_optionsObj]
    exact h1
  · intro v2 q hq
    unfold defaultOptionsView
    rw [set_optionsObj]
    simp [deepMerge, hq]
    exact h1

/-- Witness for C10: overwriting the indicator through set shows up in the
exported defaults, survives clear, and survives a further set without the
key. -/
theorem c10_witness :
    (defaultOptionsView (set (initialState [icon32] true) (Value.int 3)
      (some { indicator := some "X" })).2).indicator = "X" ∧
    (defaultOptionsView (clear (set (initialState [icon32] true) (Value.int 3)
      (some { indicator := some "X" })).2)).indicator = "X" ∧
    (defaultOptionsView (set (set (initialState [icon32] true) (Value.int 3)
      (some { indicator := some "X" })).2 (Value.int 4) (some {})).2).indicator = "X" := by
  have h := c10_options_aliasing (initialState [icon32] true) (Value.int 3)
    { indicator := some "X" } "X" rfl
  exact ⟨h.2.2.2.2.1, h.2.2.2.2.2.1, h.2.2.2.2.2.2 (Value.int 4) {} rfl⟩

end Badgin
